import Mathlib

set_option maxRecDepth 8000

namespace GA4

/-- Python-style association-list read with default, `dict.get(key, default)`. -/
def dictGetD {β : Type} : List (String × β) → String → β → β
  | [], _, d => d
  | (k, v) :: rest, key, d => if k = key then v else dictGetD rest key d

/-- Python-style association-list read, `dict.get(key)` as an `Option`. -/
def dictGet? {β : Type} : List (String × β) → String → Option β
  | [], _ => none
  | (k, v) :: rest, key => if k = key then some v else dictGet? rest key

/-- Python-style association-list write, `dict[key] = value`: update in place, append if new. -/
def dictSet {β : Type} : List (String × β) → String → β → List (String × β)
  | [], key, v => [(key, v)]
  | (k, w) :: rest, key, v => if k = key then (key, v) :: rest else (k, w) :: dictSet rest key v

/-- Python `dict.update`: fold the writes of `extra` into `base`. -/
def dictUpdate {β : Type} (base extra : List (String × β)) : List (String × β) :=
  extra.foldl (fun acc kv => dictSet acc kv.1 kv.2) base

/-- Python `str.strip("/")`. -/
def pyStripSlash (s : String) : String :=
  String.mk (((s.toList.dropWhile (fun ch => ch = '/')).reverse.dropWhile (fun ch => ch = '/')).reverse)

def titleChar (prevAlpha : Bool) (ch : Char) : Char :=
  if ch.isAlpha then (if prevAlpha then ch.toLower else ch.toUpper) else ch

def titleGo : List Char → Bool → List Char
  | [], _ => []
  | ch :: rest, prevAlpha => titleChar prevAlpha ch :: titleGo rest ch.isAlpha

/-- Python `str.title()` (ASCII behaviour). -/
def pyTitle (s : String) : String := String.mk (titleGo s.toList false)

/-- Python truthiness of an optional string (`None` and `""` are falsy). -/
def pyTruthyS : Option String → Bool
  | none => false
  | some s => !(s == "")

/-- Python `ch in s` for a single character. -/
def pyInChar (ch : Char) (s : String) : Bool := s.toList.contains ch

/-- Python banker's rounding to an integer, `round(x)`. -/
def roundHalfEven (x : ℚ) : ℤ :=
  let f := Rat.floor x
  let r := x - (f : ℚ)
  if r < 1/2 then f
  else if 1/2 < r then f + 1
  else if f % 2 = 0 then f else f + 1

/-- Python `round(x, 2)`. -/
def pyRound2 (x : ℚ) : ℚ := ((roundHalfEven (x * 100) : ℚ)) / 100

/-- GA4 ecommerce item as built by `simulator.py` (id, name, category, price, quantity). -/
structure Item where
  item_id : String
  item_name : String
  item_category : String
  price : ℚ
  quantity : ℤ
deriving DecidableEq

/-- Ecommerce item as built by `simulator-v1.py` (no category field). -/
structure ItemV1 where
  item_id : String
  item_name : String
  price : ℚ
  quantity : ℤ
deriving DecidableEq

/-- Scalar or nested values appearing in event parameter dictionaries. -/
inductive PVal where
  | i : ℤ → PVal
  | s : String → PVal
  | q : ℚ → PVal
  | items : List Item → PVal
  | itemsV1 : List ItemV1 → PVal
deriving DecidableEq

abbrev Params := List (String × PVal)

/-- The `engagement_time_msec` parameter of an event, when present as an integer. -/
def engagementOf (ps : Params) : Option ℤ :=
  match dictGet? ps "engagement_time_msec" with
  | some (PVal.i v) => some v
  | _ => none

namespace Sim

/-! Shallow embedding of `src/simulator.py`.  Randomness is made explicit: every
value the script draws from `random`, the wall clock, or `uuid` is a field of
`SessionChoices`, and `simulate_one_session` is the resulting pure function from
those draws to the ordered list of emitted events. -/

def BASE_DOMAIN : String := "https://www.lovesdata-test.com"

def PAGES : List String :=
  ["/", "/blog/", "/blog/google-analytics-4-course/", "/blog/ga4-events/",
   "/training/", "/courses/", "/contact/", "/about/"]

structure Product where
  id : String
  name : String
  category : String
  price : ℚ
deriving DecidableEq

def PRODUCTS : List Product :=
  [⟨"sku_201", "GA4 Complete Course", "Courses", 225⟩,
   ⟨"sku_202", "Google Tag Manager Course", "Courses", 225⟩,
   ⟨"sku_203", "Looker Studio Course", "Courses", 125⟩,
   ⟨"sku_204", "Google Ads Fundamentals Course", "Courses", 225⟩]

def CURRENCIES : List String := ["AUD", "USD"]

def LANGUAGES : List String := ["en-au", "en-us", "en-gb", "de-de", "fr-fr"]

structure TrafficSource where
  type : String
  source : String
  medium : Option String
  campaign : Option String
  weight : Option ℚ
  referrer : Option String
deriving DecidableEq

def TRAFFIC_SOURCES : List TrafficSource :=
  [⟨"utm", "google", some "organic", none, some 25, some "https://www.google.com/"⟩,
   ⟨"utm", "bing", some "organic", none, some 7, some "https://www.bing.com/"⟩,
   ⟨"utm", "yahoo", some "organic", none, some 3, some "https://search.yahoo.com/"⟩,
   ⟨"utm", "duckduckgo", some "organic", none, some 3, some "https://duckduckgo.com/"⟩,
   ⟨"utm", "google", some "cpc", some "spring_promotion", some 8, none⟩,
   ⟨"utm", "google", some "cpc", some "performance_max", some 6, none⟩,
   ⟨"utm", "google", some "cpc", some "branded", some 5, none⟩,
   ⟨"utm", "newsletter", some "email", some "monthly_update", some 8, none⟩,
   ⟨"referral", "facebook.com", none, none, some 5, some "https://facebook.com/"⟩,
   ⟨"referral", "l.instagram.com", none, none, some 3, some "https://l.instagram.com/"⟩,
   ⟨"utm", "facebook.com", some "paid_social", some "winter_promotion", some 3, some "https://l.facebook.com/"⟩,
   ⟨"referral", "linkedin.com", none, none, some 2, some "https://www.linkedin.com/"⟩,
   ⟨"utm", "linkedin.com", some "paid_social", some "summer_promotion", some 2, some "https://www.linkedin.com/"⟩,
   ⟨"referral", "benjaminmangold.com", none, none, some 1, some "https://benjaminmangold.com/"⟩,
   ⟨"referral", "youtube.com", none, none, some 2, some "https://www.youtube.com/"⟩,
   ⟨"referral", "chatgpt.com", none, none, some 2, some "https://chatgpt.com/"⟩,
   ⟨"referral", "gemini.google.com", none, none, some 1, some "https://gemini.google.com/"⟩,
   ⟨"direct", "(direct)", some "(none)", none, some 12, none⟩,
   ⟨"unknown", "chatgpt.com", some "(not set)", none, some 1, none⟩]

/-- `o.get("weight", 1)`. -/
def wWeight (o : TrafficSource) : ℚ := o.weight.getD 1

/-- `sum(o.get("weight", 1) for o in options)`. -/
def wTotal (options : List TrafficSource) : ℚ := (options.map wWeight).sum

/-- Accumulator walk of `weighted_choice`; `none` when the loop falls through. -/
def wcLoop : List TrafficSource → ℚ → ℚ → Option TrafficSource
  | [], _, _ => none
  | o :: rest, r, upto => if upto + wWeight o ≥ r then some o else wcLoop rest r (upto + wWeight o)

/-- `weighted_choice(options)` with the uniform draw `r` from `[0, total]` made
explicit.  The fall-through returns `options[-1]`, which for an empty list is
an `IndexError`, modelled as `none`. -/
def weighted_choice (options : List TrafficSource) (r : ℚ) : Option TrafficSource :=
  match wcLoop options r 0 with
  | some o => some o
  | none => options.getLast?

/-- `build_url_with_utms(path, src)`. -/
def build_url_with_utms (path : String) (src : TrafficSource) : String :=
  let base := BASE_DOMAIN ++ path
  let ps := ["utm_source=" ++ src.source, "utm_medium=" ++ src.medium.getD ""]
  let ps := if pyTruthyS src.campaign then ps ++ ["utm_campaign=" ++ src.campaign.getD ""] else ps
  let joiner := if pyInChar '?' base then "&" else "?"
  base ++ joiner ++ String.intercalate "&" ps

structure DeviceProfile where
  kind : String
  user_agent : String
  screen_resolution : String
  platform : String
  os_hint : String
deriving DecidableEq

def DESKTOP_PROFILES : List DeviceProfile :=
  [⟨"desktop",
    "Mozilla/5.0 (Macintosh; Intel Mac OS X 10_15_7) AppleWebKit/537.36 (KHTML, like Gecko) Chrome/122.0.0.0 Safari/537.36",
    "2560x1440", "MacIntel", "macOS"⟩,
   ⟨"desktop",
    "Mozilla/5.0 (Windows NT 10.0; Win64; x64) AppleWebKit/537.36 (KHTML, like Gecko) Chrome/122.0.0.0 Safari/537.36",
    "1920x1080", "Win32", "Windows"⟩]

def MOBILE_PROFILES : List DeviceProfile :=
  [⟨"mobile",
    "Mozilla/5.0 (iPhone; CPU iPhone OS 17_2 like Mac OS X) AppleWebKit/605.1.15 (KHTML, like Gecko) Version/17.2 Mobile/15E148 Safari/604.1",
    "390x844", "iPhone", "iOS"⟩,
   ⟨"mobile",
    "Mozilla/5.0 (Linux; Android 14; Pixel 7) AppleWebKit/537.36 (KHTML, like Gecko) Chrome/122.0.0.0 Mobile Safari/537.36",
    "412x915", "Linux armv8l", "Android"⟩]

/-- `micros_from_ms(ms)`. -/
def micros_from_ms (ms : ℤ) : ℤ := ms * 1000

/-- `next_session_number(client_id)` acting on the explicit state
`SESSION_NUMBER_BY_CLIENT`; returns the ordinal and the updated dictionary. -/
def next_session_number (m : List (String × ℕ)) (client_id : String) : ℕ × List (String × ℕ) :=
  let n := dictGetD m client_id 0 + 1
  (n, dictSet m client_id n)

/-- `SESSION_NUMBER_BY_CLIENT = {cid: 0 for cid in CLIENT_ID_POOL}`. -/
def initPool (pool : List String) : List (String × ℕ) := pool.map (fun cid => (cid, 0))

/-- The orchestrator loop of `main` restricted to session-number bookkeeping:
for each picked client id, call `next_session_number` and record the pair
`(client_id, ga_session_number)` handed to the session. -/
def runOrdinals : List String → List (String × ℕ) → List (String × ℕ)
  | [], _ => []
  | cid :: rest, m =>
    (cid, (next_session_number m cid).1) :: runOrdinals rest (next_session_number m cid).2

/-- The ordinals assigned to one identity over a run, in emission order. -/
def ordinalsFor (l : List (String × ℕ)) (cid : String) : List ℕ :=
  l.filterMap (fun p => if p.1 = cid then some p.2 else none)

/-- All values the script ever draws while simulating one session, in draw order. -/
structure SessionChoices where
  now_epoch_s : ℤ
  base_ms : ℤ
  lang : String
  device : DeviceProfile
  src : TrafficSource
  paths : List String
  pv1_eng : ℤ
  do_scroll : Bool
  scroll_eng : ℤ
  addl_engs : List ℤ
  addl_gaps : List ℤ
  enter_funnel : Bool
  product : Product
  currency : String
  vi_eng : ℤ
  do_atc : Bool
  atc_eng : ℤ
  do_bc : Bool
  bc_eng : ℤ
  do_purchase : Bool
  purchase_eng : ℤ
  txn_id : String
deriving DecidableEq

/-- One Measurement Protocol request as assembled by `simulate_one_session`:
the single event of the payload plus the payload-level and header-level data. -/
structure Event where
  client_id : String
  name : String
  offset_ms : ℤ
  timestamp_micros : ℤ
  params : Params
  user_properties : List (String × String)
  user_agent : String
deriving DecidableEq

def user_props (c : SessionChoices) : List (String × String) :=
  [("simulator", "ga4_traffic_sim"), ("device_kind", c.device.kind)]

/-- `first_path.strip("/").title() or "Home"`. -/
def pageTitle (path : String) : String :=
  let t := pyTitle (pyStripSlash path)
  if t = "" then "Home" else t

def first_path (c : SessionChoices) : String := c.paths.headD ""

/-- The landing `page_location`, per the `src["type"]` dispatch. -/
def first_url (c : SessionChoices) : String :=
  if c.src.type = "utm" then build_url_with_utms (first_path c) c.src
  else BASE_DOMAIN ++ first_path c

/-- The landing `page_referrer`, per the `src["type"]` dispatch
(`src.get("referrer") or f"https://{src['source']}/"` for referral sources). -/
def first_referrer (c : SessionChoices) : Option String :=
  if c.src.type = "utm" then c.src.referrer
  else if c.src.type = "referral" then
    some (if pyTruthyS c.src.referrer then c.src.referrer.getD "" else "https://" ++ c.src.source ++ "/")
  else none

def session_start_event (client_id : String) (c : SessionChoices) (n : ℕ) : Event :=
  { client_id := client_id, name := "session_start", offset_ms := 0,
    timestamp_micros := micros_from_ms c.base_ms,
    params := [("ga_session_id", PVal.i c.now_epoch_s), ("ga_session_number", PVal.i (n : ℤ)),
               ("language", PVal.s c.lang),
               ("screen_resolution", PVal.s c.device.screen_resolution),
               ("platform", PVal.s c.device.platform), ("os_hint", PVal.s c.device.os_hint),
               ("engagement_time_msec", PVal.i 1)],
    user_properties := user_props c, user_agent := c.device.user_agent }

def pv1_base_params (c : SessionChoices) (n : ℕ) : Params :=
  [("ga_session_id", PVal.i c.now_epoch_s), ("ga_session_number", PVal.i (n : ℤ)),
   ("page_location", PVal.s (first_url c)),
   ("page_title", PVal.s (pageTitle (first_path c))),
   ("language", PVal.s c.lang),
   ("screen_resolution", PVal.s c.device.screen_resolution),
   ("platform", PVal.s c.device.platform), ("os_hint", PVal.s c.device.os_hint),
   ("engagement_time_msec", PVal.i c.pv1_eng)]

def pv1_event (client_id : String) (c : SessionChoices) (n : ℕ) : Event :=
  { client_id := client_id, name := "page_view", offset_ms := 100,
    timestamp_micros := micros_from_ms (c.base_ms + 100),
    params :=
      if pyTruthyS (first_referrer c) then
        pv1_base_params c n ++ [("page_referrer", PVal.s ((first_referrer c).getD ""))]
      else pv1_base_params c n,
    user_properties := user_props c, user_agent := c.device.user_agent }

def scroll_event (client_id : String) (c : SessionChoices) (n : ℕ) : Event :=
  { client_id := client_id, name := "scroll", offset_ms := 12000,
    timestamp_micros := micros_from_ms (c.base_ms + 12000),
    params := [("ga_session_id", PVal.i c.now_epoch_s), ("ga_session_number", PVal.i (n : ℤ)),
               ("language", PVal.s c.lang), ("engagement_time_msec", PVal.i c.scroll_eng)],
    user_properties := user_props c, user_agent := c.device.user_agent }

def addl_pv_event (client_id : String) (c : SessionChoices) (n : ℕ)
    (path : String) (eng : ℤ) (t : ℤ) : Event :=
  { client_id := client_id, name := "page_view", offset_ms := t,
    timestamp_micros := micros_from_ms (c.base_ms + t),
    params := [("ga_session_id", PVal.i c.now_epoch_s), ("ga_session_number", PVal.i (n : ℤ)),
               ("page_location", PVal.s (BASE_DOMAIN ++ path)),
               ("page_title", PVal.s (pageTitle path)),
               ("language", PVal.s c.lang), ("engagement_time_msec", PVal.i eng)],
    user_properties := user_props c, user_agent := c.device.user_agent }

/-- The `for path in paths[1:]` loop; `t` is the running `t_cursor`, and each
element of `rest` is `(path, engagement draw, t_cursor increment draw)`. -/
def addl_pv_events (client_id : String) (c : SessionChoices) (n : ℕ) :
    List (String × ℤ × ℤ) → ℤ → List Event
  | [], _ => []
  | (p, eng, gap) :: rest, t =>
    addl_pv_event client_id c n p eng t :: addl_pv_events client_id c n rest (t + gap)

/-- The `item` dict built once at funnel entry. -/
def sessionItem (c : SessionChoices) : Item :=
  { item_id := c.product.id, item_name := c.product.name, item_category := c.product.category,
    price := c.product.price, quantity := 1 }

/-- The nested `send_ecom(name, extra_params, offset_ms)` helper. -/
def send_ecom (client_id : String) (c : SessionChoices) (n : ℕ)
    (name : String) (extra : Params) (offset_ms : ℤ) (eng : ℤ) : Event :=
  { client_id := client_id, name := name, offset_ms := offset_ms,
    timestamp_micros := micros_from_ms (c.base_ms + offset_ms),
    params := dictUpdate
      [("ga_session_id", PVal.i c.now_epoch_s), ("ga_session_number", PVal.i (n : ℤ)),
       ("currency", PVal.s c.currency), ("items", PVal.items [sessionItem c]),
       ("language", PVal.s c.lang), ("engagement_time_msec", PVal.i eng)] extra,
    user_properties := user_props c, user_agent := c.device.user_agent }

/-- Step 5 of the session: the gated ecommerce funnel. -/
def ecom_events (client_id : String) (c : SessionChoices) (n : ℕ) : List Event :=
  if c.enter_funnel then
    send_ecom client_id c n "view_item" [("value", PVal.q c.product.price)] 4000 c.vi_eng ::
    (if c.do_atc then
      send_ecom client_id c n "add_to_cart" [("value", PVal.q c.product.price)] 8000 c.atc_eng ::
      (if c.do_bc then
        send_ecom client_id c n "begin_checkout" [("value", PVal.q c.product.price)] 13000 c.bc_eng ::
        (if c.do_purchase then
          [send_ecom client_id c n "purchase"
            [("transaction_id", PVal.s c.txn_id), ("value", PVal.q c.product.price),
             ("tax", PVal.q (pyRound2 (c.product.price * (1 / 10)))), ("shipping", PVal.q 0)]
            22000 c.purchase_eng]
        else [])
      else [])
    else [])
  else []

/-- Steps 1-4 of the session: session_start, landing page view, optional scroll,
additional page views starting at `t_cursor = 15_000`. -/
def nonecom_events (client_id : String) (c : SessionChoices) (n : ℕ) : List Event :=
  session_start_event client_id c n :: pv1_event client_id c n ::
  ((if c.do_scroll then [scroll_event client_id c n] else []) ++
   addl_pv_events client_id c n (c.paths.tail.zip (c.addl_engs.zip c.addl_gaps)) 15000)

/-- `simulate_one_session(client_id)` as a pure function of the explicit draws
`c` and the ordinal `n` returned by `next_session_number`, yielding the emitted
events in emission order. -/
def simulate_one_session (client_id : String) (c : SessionChoices) (n : ℕ) : List Event :=
  nonecom_events client_id c n ++ ecom_events client_id c n

/-- The ranges and memberships guaranteed for the draws in `SessionChoices` by
`random.choice`, `random.sample`, `random.randint` and `weighted_choice`. -/
def ValidChoices (c : SessionChoices) : Prop :=
  c.lang ∈ LANGUAGES ∧
  (c.device ∈ DESKTOP_PROFILES ∨ c.device ∈ MOBILE_PROFILES) ∧
  c.src ∈ TRAFFIC_SOURCES ∧
  2 ≤ c.paths.length ∧ c.paths.length ≤ 6 ∧ c.paths.Nodup ∧ (∀ p ∈ c.paths, p ∈ PAGES) ∧
  50 ≤ c.pv1_eng ∧ c.pv1_eng ≤ 250 ∧
  800 ≤ c.scroll_eng ∧ c.scroll_eng ≤ 2500 ∧
  c.addl_engs.length = c.paths.length - 1 ∧ (∀ e ∈ c.addl_engs, 200 ≤ e ∧ e ≤ 1200) ∧
  c.addl_gaps.length = c.paths.length - 1 ∧ (∀ g ∈ c.addl_gaps, 3000 ≤ g ∧ g ≤ 8000) ∧
  c.product ∈ PRODUCTS ∧ c.currency ∈ CURRENCIES ∧
  150 ≤ c.vi_eng ∧ c.vi_eng ≤ 900 ∧
  150 ≤ c.atc_eng ∧ c.atc_eng ≤ 900 ∧
  150 ≤ c.bc_eng ∧ c.bc_eng ≤ 900 ∧
  150 ≤ c.purchase_eng ∧ c.purchase_eng ≤ 900

instance (c : SessionChoices) : Decidable (ValidChoices c) := by
  unfold ValidChoices; infer_instance

end Sim

namespace SimV1

/-! Shallow embedding of `src/simulator-v1.py`, in the same style: all random
draws appear as fields of `V1Choices` and `simulate_session` is a pure function
from the draws to the emitted events (v1 events carry no timestamps). -/

structure TrafficSourceV1 where
  medium : String
  source : String
  campaign : Option String
deriving DecidableEq

def TRAFFIC_SOURCES : List TrafficSourceV1 :=
  [⟨"organic", "google", none⟩,
   ⟨"organic", "bing", none⟩,
   ⟨"organic", "yahoo", none⟩,
   ⟨"organic", "duckduckgo", none⟩,
   ⟨"cpc", "google", some "spring+promotion"⟩,
   ⟨"cpc", "google", some "performance+max"⟩,
   ⟨"cpc", "google", some "branded"⟩,
   ⟨"email", "newsletter", some "monthly+update"⟩,
   ⟨"referral", "facebook.com", none⟩,
   ⟨"referral", "l.instagram.com", none⟩,
   ⟨"paid", "facebook.com", some "winter+promotion"⟩,
   ⟨"referral", "linkedin.com", none⟩,
   ⟨"paid", "linkedin.com", some "summer+promotion"⟩,
   ⟨"referral", "benjaminmangold.com", none⟩,
   ⟨"referral", "youtube.com", none⟩,
   ⟨"(none)", "(direct)", none⟩,
   ⟨"referral", "chatgpt.com", none⟩,
   ⟨"referral", "gemini.google.com", none⟩,
   ⟨"(not set)", "chatgpt.com", none⟩]

def PAGES : List String :=
  ["/home", "/products", "/products/item1", "/cart",
   "/checkout", "/thank-you", "/about", "/blog", "/contact"]

def LANGUAGES : List String := ["en", "en-US", "en-GB", "fr", "de", "es"]

def DEVICES : List String := ["mobile", "tablet", "desktop"]

def COUNTRIES : List String := ["AU", "US", "GB", "DE", "IN", "CA"]

structure ProductV1 where
  id : String
  name : String
  price : ℚ
deriving DecidableEq

def PRODUCTS : List ProductV1 :=
  [⟨"sku_101", "Wireless Mouse", 2999 / 100⟩,
   ⟨"sku_102", "Mechanical Keyboard", 8999 / 100⟩,
   ⟨"sku_103", "USB-C Hub", 4995 / 100⟩,
   ⟨"sku_104", "Laptop Stand", 3950 / 100⟩,
   ⟨"sku_105", "Noise Cancelling Headphones", 12999 / 100⟩,
   ⟨"sku_106", "Portable SSD 1TB", 10999 / 100⟩,
   ⟨"sku_107", "Webcam 1080p", 59⟩,
   ⟨"sku_108", "Bluetooth Speaker", 7995 / 100⟩,
   ⟨"sku_109", "Smartphone Tripod", 24⟩,
   ⟨"sku_110", "Desk Lamp", 45⟩]

/-- All values `simulate_session` draws, in draw order. -/
structure V1Choices where
  session_id : String
  user_lang : String
  user_device : String
  user_country : String
  traffic : TrafficSourceV1
  paths : List String
  ss_eng : ℤ
  pv_engs : List ℤ
  do_purchase : Bool
  product : ProductV1
  txn_id : String
deriving DecidableEq

/-- One Measurement Protocol request as assembled by v1's `simulate_session`. -/
structure EventV1 where
  client_id : String
  name : String
  params : Params
  user_properties : List (String × String)
deriving DecidableEq

def common_user_properties (c : V1Choices) : List (String × String) :=
  [("device_category", c.user_device), ("language", c.user_lang), ("geo_country", c.user_country)]

def session_start_v1 (client_id : String) (c : V1Choices) : EventV1 :=
  { client_id := client_id, name := "session_start",
    params := [("session_id", PVal.s c.session_id), ("engagement_time_msec", PVal.i c.ss_eng)],
    user_properties := common_user_properties c }

def page_view_v1 (client_id : String) (c : V1Choices) (path : String) (eng : ℤ) : EventV1 :=
  { client_id := client_id, name := "page_view",
    params := [("page_location", PVal.s ("https://www.lovesdata-test.com" ++ path)),
               ("page_title", PVal.s (pyTitle (pyStripSlash path))),
               ("session_id", PVal.s c.session_id),
               ("engagement_time_msec", PVal.i eng),
               ("source", PVal.s c.traffic.source),
               ("medium", PVal.s c.traffic.medium),
               ("campaign", PVal.s (c.traffic.campaign.getD "(not set)"))],
    user_properties := common_user_properties c }

def page_views_v1 (client_id : String) (c : V1Choices) : List (String × ℤ) → List EventV1
  | [] => []
  | (p, eng) :: rest => page_view_v1 client_id c p eng :: page_views_v1 client_id c rest

def purchase_v1 (client_id : String) (c : V1Choices) : EventV1 :=
  { client_id := client_id, name := "purchase",
    params := [("transaction_id", PVal.s c.txn_id),
               ("currency", PVal.s "AUD"),
               ("value", PVal.q c.product.price),
               ("items", PVal.itemsV1 [⟨c.product.id, c.product.name, c.product.price, 1⟩]),
               ("session_id", PVal.s c.session_id)],
    user_properties := common_user_properties c }

/-- `simulate_session(client_id, purchase_chance)` as a pure function of the
explicit draws, yielding the emitted events in emission order. -/
def simulate_session (client_id : String) (c : V1Choices) : List EventV1 :=
  session_start_v1 client_id c ::
  (page_views_v1 client_id c (c.paths.zip c.pv_engs) ++
   (if c.do_purchase then [purchase_v1 client_id c] else []))

/-- Ranges and memberships guaranteed for the draws in `V1Choices`. -/
def ValidChoicesV1 (c : V1Choices) : Prop :=
  c.user_lang ∈ LANGUAGES ∧ c.user_device ∈ DEVICES ∧ c.user_country ∈ COUNTRIES ∧
  c.traffic ∈ TRAFFIC_SOURCES ∧
  2 ≤ c.paths.length ∧ c.paths.length ≤ 5 ∧ c.paths.Nodup ∧ (∀ p ∈ c.paths, p ∈ PAGES) ∧
  100 ≤ c.ss_eng ∧ c.ss_eng ≤ 500 ∧
  c.pv_engs.length = c.paths.length ∧ (∀ e ∈ c.pv_engs, 100 ≤ e ∧ e ≤ 600) ∧
  c.product ∈ PRODUCTS

instance (c : V1Choices) : Decidable (ValidChoicesV1 c) := by
  unfold ValidChoicesV1; infer_instance

end SimV1

/-! Association-list dictionary lemmas. -/

theorem dictGetD_dictSet_self {β : Type} (m : List (String × β)) (k : String) (v d : β) :
    dictGetD (dictSet m k v) k d = v := by
  induction m with
  | nil => simp [dictSet, dictGetD]
  | cons hd tl ih =>
    obtain ⟨k', w⟩ := hd
    by_cases h : k' = k
    · simp [dictSet, dictGetD, h]
    · simp [dictSet, dictGetD, h, ih]

theorem dictGetD_dictSet_ne {β : Type} (m : List (String × β)) (k key : String) (v d : β)
    (h : k ≠ key) : dictGetD (dictSet m k v) key d = dictGetD m key d := by
  induction m with
  | nil => simp [dictSet, dictGetD, h]
  | cons hd tl ih =>
    obtain ⟨k', w⟩ := hd
    by_cases h' : k' = k
    · subst h'
      simp [dictSet, dictGetD, h]
    · simp [dictSet, dictGetD, h', ih]

theorem dictGetD_of_dictGet?_none {β : Type} (m : List (String × β)) (key : String) (d : β)
    (h : dictGet? m key = none) : dictGetD m key d = d := by
  induction m with
  | nil => simp [dictGetD]
  | cons hd tl ih =>
    obtain ⟨k', w⟩ := hd
    by_cases h' : k' = key
    · simp [dictGet?, h'] at h
    · simp [dictGet?, h'] at h
      simp [dictGetD, h', ih h]

theorem dictSet_of_dictGet?_none {β : Type} (m : List (String × β)) (key : String) (v : β)
    (h : dictGet? m key = none) : dictSet m key v = m ++ [(key, v)] := by
  induction m with
  | nil => simp [dictSet]
  | cons hd tl ih =>
    obtain ⟨k', w⟩ := hd
    by_cases h' : k' = key
    · simp [dictGet?, h'] at h
    · simp [dictGet?, h'] at h
      simp [dictSet, h', ih h]

theorem dictGet?_dictSet_self {β : Type} (m : List (String × β)) (k : String) (v : β) :
    dictGet? (dictSet m k v) k = some v := by
  induction m with
  | nil => simp [dictSet, dictGet?]
  | cons hd tl ih =>
    obtain ⟨k', w⟩ := hd
    by_cases h : k' = k
    · simp [dictSet, dictGet?, h]
    · simp [dictSet, dictGet?, h, ih]

/-! Identity-pool bookkeeping: how `next_session_number` behaves over a run. -/

theorem ordinalsFor_cons_self (cid : String) (n : ℕ) (l : List (String × ℕ)) :
    Sim.ordinalsFor ((cid, n) :: l) cid = n :: Sim.ordinalsFor l cid := by
  simp [Sim.ordinalsFor]

theorem ordinalsFor_cons_ne (p cid : String) (n : ℕ) (l : List (String × ℕ)) (h : p ≠ cid) :
    Sim.ordinalsFor ((p, n) :: l) cid = Sim.ordinalsFor l cid := by
  simp [Sim.ordinalsFor, h]

theorem runOrdinals_ordinalsFor (cid : String) (picks : List String) :
    ∀ m : List (String × ℕ),
      Sim.ordinalsFor (Sim.runOrdinals picks m) cid =
        List.range' (dictGetD m cid 0 + 1) (picks.count cid) := by
  induction picks with
  | nil => intro m; simp [Sim.runOrdinals, Sim.ordinalsFor]
  | cons p rest ih =>
    intro m
    by_cases h : p = cid
    · subst h
      rw [Sim.runOrdinals, ordinalsFor_cons_self, ih]
      simp only [Sim.next_session_number]
      rw [dictGetD_dictSet_self, List.count_cons_self, List.range'_succ]
    · rw [Sim.runOrdinals, ordinalsFor_cons_ne _ _ _ _ h, ih]
      simp only [Sim.next_session_number]
      rw [dictGetD_dictSet_ne _ _ _ _ _ h,
        List.count_cons_of_ne (fun hc => h hc.symm)]

theorem initPool_getD (pool : List String) (cid : String) :
    dictGetD (Sim.initPool pool) cid 0 = 0 := by
  induction pool with
  | nil => simp [Sim.initPool, dictGetD]
  | cons p rest ih =>
    by_cases h : p = cid
    · simp [Sim.initPool, dictGetD, h]
    · simpa [Sim.initPool, dictGetD, h] using ih

/-- Claim C7: over a run that picks the given sequence of client ids, the session
ordinals handed out to any one identity are exactly `1, 2, …, k` in increasing
order (no gaps, no repeats), where `k` is the number of sessions simulated for
that identity; the counter starts at 1 and never resets within the run. -/
theorem c7_session_ordinals_exact (pool : List String) (picks : List String) (cid : String) :
    Sim.ordinalsFor (Sim.runOrdinals picks (Sim.initPool pool)) cid =
      List.range' 1 (picks.count cid) := by
  rw [runOrdinals_ordinalsFor, initPool_getD]

/-- Claim C8 counterexample: requesting a session ordinal for an identity absent
from the counter dictionary does not fail — `next_session_number` succeeds,
returns 1, and installs a fresh counter for the unknown identity. -/
theorem c8_counterexample :
    dictGet? ([] : List (String × ℕ)) "unknown-client" = none ∧
    Sim.next_session_number [] "unknown-client" = (1, [("unknown-client", 1)]) :=
  ⟨rfl, rfl⟩

/-- Claim C8 (amended): requesting a session ordinal for an identity not in the
counter dictionary succeeds rather than failing fast: it returns ordinal 1 and
silently appends a new counter for the unknown identity. -/
theorem c8_silent_counter_creation (m : List (String × ℕ)) (cid : String)
    (h : dictGet? m cid = none) :
    (Sim.next_session_number m cid).1 = 1 ∧
    (Sim.next_session_number m cid).2 = m ++ [(cid, 1)] ∧
    dictGet? (Sim.next_session_number m cid).2 cid = some 1 := by
  refine ⟨?_, ?_, ?_⟩
  · simp [Sim.next_session_number, dictGetD_of_dictGet?_none m cid 0 h]
  · simp [Sim.next_session_number, dictGetD_of_dictGet?_none m cid 0 h,
      dictSet_of_dictGet?_none m cid 1 h]
  · simp [Sim.next_session_number, dictGetD_of_dictGet?_none m cid 0 h,
      dictGet?_dictSet_self]

/-- Witness for C8 (amended) at a concrete one-entry dictionary. -/
theorem c8_silent_counter_creation_witness :
    dictGet? [("1234.5678", 2)] "9999.0000" = none ∧
    ((Sim.next_session_number [("1234.5678", 2)] "9999.0000").1 = 1 ∧
     (Sim.next_session_number [("1234.5678", 2)] "9999.0000").2 =
       [("1234.5678", 2)] ++ [("9999.0000", 1)] ∧
     dictGet? (Sim.next_session_number [("1234.5678", 2)] "9999.0000").2 "9999.0000" = some 1) :=
  ⟨by decide, c8_silent_counter_creation [("1234.5678", 2)] "9999.0000" (by decide)⟩

/-! Observation predicates over emitted events. -/

/-- The four ecommerce funnel stages in chain order. -/
def ecomNames : List String := ["view_item", "add_to_cart", "begin_checkout", "purchase"]

def isEcomName (s : String) : Bool := ecomNames.contains s

/-- Whether an event carries acquisition data: an explicit `page_referrer`
parameter, or a `page_location` with a query string (the only query parameters
the simulator ever builds are the UTM attribution parameters). -/
def eventHasAcq (e : Sim.Event) : Bool :=
  (dictGet? e.params "page_referrer").isSome ||
  (match dictGet? e.params "page_location" with
   | some (PVal.s u) => pyInChar '?' u
   | _ => false)

/-! Concrete draw records used by counterexamples and witnesses. -/

/-- The macOS desktop profile (first catalog entry). -/
def exDevice : Sim.DeviceProfile := Sim.DESKTOP_PROFILES.headD ⟨"", "", "", "", ""⟩

/-- A funnel-entering session: two pages, no scroll, every funnel coin-flip succeeds. -/
def cFun : Sim.SessionChoices :=
  { now_epoch_s := 1700000000, base_ms := 1700000000123, lang := "en-au",
    device := exDevice,
    src := ⟨"direct", "(direct)", some "(none)", none, some 12, none⟩,
    paths := ["/", "/blog/"], pv1_eng := 80, do_scroll := false, scroll_eng := 1000,
    addl_engs := [300], addl_gaps := [3000],
    enter_funnel := true, product := ⟨"sku_201", "GA4 Complete Course", "Courses", 225⟩,
    currency := "AUD", vi_eng := 200, do_atc := true, atc_eng := 300,
    do_bc := true, bc_eng := 400, do_purchase := true, purchase_eng := 500,
    txn_id := "3b241101-e2bb-4255-8caf-4136c566a962" }

/-- A session with scroll and three pages that never enters the funnel. -/
def cNoFun : Sim.SessionChoices :=
  { cFun with
    do_scroll := true,
    enter_funnel := false,
    paths := ["/", "/blog/", "/about/"],
    addl_engs := [300, 400],
    addl_gaps := [3000, 4000] }

/-- A v1 session with two page views and a successful purchase roll. -/
def v1Ex : SimV1.V1Choices :=
  { session_id := "1234567890", user_lang := "en", user_device := "desktop", user_country := "AU",
    traffic := ⟨"organic", "google", none⟩,
    paths := ["/home", "/products"], ss_eng := 200, pv_engs := [150, 250],
    do_purchase := true, product := ⟨"sku_110", "Desk Lamp", 45⟩,
    txn_id := "9f53cc1d-aaaa-4255-8caf-4136c566a900" }

/-! Shape lemmas: what an event of a session can be. -/

theorem mem_addl (client_id : String) (c : Sim.SessionChoices) (n : ℕ) :
    ∀ (rest : List (String × ℤ × ℤ)) (t : ℤ) (e : Sim.Event),
      e ∈ Sim.addl_pv_events client_id c n rest t →
      ∃ x ∈ rest, ∃ t' : ℤ, e = Sim.addl_pv_event client_id c n x.1 x.2.1 t' := by
  intro rest
  induction rest with
  | nil => intro t e h; simp [Sim.addl_pv_events] at h
  | cons hd tl ih =>
    obtain ⟨p, eng, gap⟩ := hd
    intro t e h
    rw [Sim.addl_pv_events] at h
    rcases List.mem_cons.mp h with h | h
    · exact ⟨(p, eng, gap), List.mem_cons_self _ _, t, h⟩
    · obtain ⟨x, hx, t', he⟩ := ih _ _ h
      exact ⟨x, List.mem_cons_of_mem _ hx, t', he⟩

theorem mem_nonecom (client_id : String) (c : Sim.SessionChoices) (n : ℕ) (e : Sim.Event)
    (h : e ∈ Sim.nonecom_events client_id c n) :
    e = Sim.session_start_event client_id c n ∨ e = Sim.pv1_event client_id c n ∨
    (c.do_scroll = true ∧ e = Sim.scroll_event client_id c n) ∨
    (∃ x ∈ c.paths.tail.zip (c.addl_engs.zip c.addl_gaps), ∃ t : ℤ,
       e = Sim.addl_pv_event client_id c n x.1 x.2.1 t) := by
  unfold Sim.nonecom_events at h
  rcases List.mem_cons.mp h with h | h
  · exact Or.inl h
  rcases List.mem_cons.mp h with h | h
  · exact Or.inr (Or.inl h)
  rcases List.mem_append.mp h with h | h
  · cases hds : c.do_scroll
    · rw [hds] at h; simp at h
    · rw [hds] at h
      simp at h
      exact Or.inr (Or.inr (Or.inl ⟨rfl, h⟩))
  · exact Or.inr (Or.inr (Or.inr (mem_addl client_id c n _ _ e h)))

theorem mem_ecom (client_id : String) (c : Sim.SessionChoices) (n : ℕ) (e : Sim.Event)
    (h : e ∈ Sim.ecom_events client_id c n) :
    e = Sim.send_ecom client_id c n "view_item" [("value", PVal.q c.product.price)] 4000 c.vi_eng ∨
    e = Sim.send_ecom client_id c n "add_to_cart" [("value", PVal.q c.product.price)] 8000 c.atc_eng ∨
    e = Sim.send_ecom client_id c n "begin_checkout" [("value", PVal.q c.product.price)] 13000 c.bc_eng ∨
    e = Sim.send_ecom client_id c n "purchase"
        [("transaction_id", PVal.s c.txn_id), ("value", PVal.q c.product.price),
         ("tax", PVal.q (pyRound2 (c.product.price * (1 / 10)))), ("shipping", PVal.q 0)]
        22000 c.purchase_eng := by
  unfold Sim.ecom_events at h
  cases hef : c.enter_funnel <;> rw [hef] at h
  · simp at h
  · rcases List.mem_cons.mp h with h | h
    · exact Or.inl h
    cases hatc : c.do_atc <;> rw [hatc] at h
    · simp at h
    rcases List.mem_cons.mp h with h | h
    · exact Or.inr (Or.inl h)
    cases hbc : c.do_bc <;> rw [hbc] at h
    · simp at h
    rcases List.mem_cons.mp h with h | h
    · exact Or.inr (Or.inr (Or.inl h))
    cases hp : c.do_purchase <;> rw [hp] at h
    · simp at h
    rcases List.mem_cons.mp h with h | h
    · exact Or.inr (Or.inr (Or.inr h))
    · simp at h

/-! Offset lemmas for C1. -/

theorem addl_offsets_chain (client_id : String) (c : Sim.SessionChoices) (n : ℕ) :
    ∀ (rest : List (String × ℤ × ℤ)) (t prev : ℤ), prev < t →
      (∀ x ∈ rest, (0 : ℤ) < x.2.2) →
      List.Chain' (· < ·)
        (prev :: (Sim.addl_pv_events client_id c n rest t).map Sim.Event.offset_ms) := by
  intro rest
  induction rest with
  | nil => intro t prev hlt hpos; simp [Sim.addl_pv_events]
  | cons hd tl ih =>
    obtain ⟨p, eng, gap⟩ := hd
    intro t prev hlt hpos
    rw [Sim.addl_pv_events, List.map_cons, List.chain'_cons]
    refine ⟨hlt, ?_⟩
    have hgap : (0 : ℤ) < gap := hpos (p, eng, gap) (List.mem_cons_self _ _)
    exact ih (t + gap) t (by linarith) (fun x hx => hpos x (List.mem_cons_of_mem _ hx))

theorem nonecom_offsets_chain (client_id : String) (c : Sim.SessionChoices) (n : ℕ)
    (hgaps : ∀ g ∈ c.addl_gaps, 3000 ≤ g ∧ g ≤ 8000) :
    List.Chain' (· < ·) ((Sim.nonecom_events client_id c n).map Sim.Event.offset_ms) := by
  have hpos : ∀ x ∈ c.paths.tail.zip (c.addl_engs.zip c.addl_gaps), (0 : ℤ) < x.2.2 := by
    intro x hx
    have h1 := (List.of_mem_zip hx).2
    have h2 := (List.of_mem_zip h1).2
    linarith [(hgaps _ h2).1]
  unfold Sim.nonecom_events
  rw [List.map_cons, List.map_cons, List.chain'_cons]
  refine ⟨by show (0 : ℤ) < 100; norm_num, ?_⟩
  cases hds : c.do_scroll
  · rw [if_neg (by simp [hds])]
    rw [List.nil_append]
    exact addl_offsets_chain client_id c n _ 15000 100 (by norm_num) hpos
  · rw [if_pos (by simp [hds])]
    rw [List.singleton_append, List.map_cons, List.chain'_cons]
    refine ⟨by show (100 : ℤ) < 12000; norm_num, ?_⟩
    exact addl_offsets_chain client_id c n _ 15000 12000 (by norm_num) hpos

theorem ecom_offsets_chain (client_id : String) (c : Sim.SessionChoices) (n : ℕ) :
    List.Chain' (· < ·) ((Sim.ecom_events client_id c n).map Sim.Event.offset_ms) := by
  unfold Sim.ecom_events
  cases c.enter_funnel
  · simp
  cases c.do_atc
  · simp [List.chain'_singleton]
  cases c.do_bc
  · refine List.chain'_cons.mpr ⟨by show (4000 : ℤ) < 8000; norm_num, ?_⟩
    simp [List.chain'_singleton]
  cases c.do_purchase
  · refine List.chain'_cons.mpr ⟨by show (4000 : ℤ) < 8000; norm_num, ?_⟩
    refine List.chain'_cons.mpr ⟨by show (8000 : ℤ) < 13000; norm_num, ?_⟩
    simp [List.chain'_singleton]
  · refine List.chain'_cons.mpr ⟨by show (4000 : ℤ) < 8000; norm_num, ?_⟩
    refine List.chain'_cons.mpr ⟨by show (8000 : ℤ) < 13000; norm_num, ?_⟩
    refine List.chain'_cons.mpr ⟨by show (13000 : ℤ) < 22000; norm_num, ?_⟩
    simp [List.chain'_singleton]

/-- A second session sharing `cFun`'s wall-clock second (`now_epoch_s`) but
differing in identity, sub-second start time, language, device and flow. -/
def cTick2 : Sim.SessionChoices :=
  { cFun with
    base_ms := 1700000000897,
    lang := "en-gb",
    device := Sim.MOBILE_PROFILES.headD ⟨"", "", "", "", ""⟩,
    enter_funnel := false,
    do_scroll := true }

/-- Claim C4 (code bug): the session key is `int(datetime.now().timestamp())` — a
seconds-resolution wall-clock value with no per-run randomness — so two different
sessions of two different identities that start in the same wall-clock second get
the very same key; it is stable on every event of each session, but not distinct
across sessions started in the same process tick. -/
theorem c4_session_key_collision :
    cFun ≠ cTick2 ∧ cFun.now_epoch_s = cTick2.now_epoch_s ∧
    (Sim.simulate_one_session "1111111111.2222222222" cFun 1).map
        (fun e => dictGet? e.params "ga_session_id") =
      List.replicate 7 (some (PVal.i 1700000000)) ∧
    (Sim.simulate_one_session "3333333333.4444444444" cTick2 2).map
        (fun e => dictGet? e.params "ga_session_id") =
      List.replicate 4 (some (PVal.i 1700000000)) :=
  ⟨by decide, rfl, rfl, rfl⟩

/-- Claim C1 counterexample: a session that enters the purchase funnel emits its
events with offsets `0, 100, 15000, 4000, 8000, 13000, 22000` — the view_item
event is emitted after the additional page view yet carries a smaller offset, so
the emission-order offset sequence is not non-decreasing. -/
theorem c1_counterexample :
    (Sim.simulate_one_session "u0" cFun 1).map Sim.Event.offset_ms =
      [0, 100, 15000, 4000, 8000, 13000, 22000] ∧
    ¬ List.Chain' (· ≤ ·) ((Sim.simulate_one_session "u0" cFun 1).map Sim.Event.offset_ms) := by
  refine ⟨rfl, ?_⟩
  intro hch
  rw [show (Sim.simulate_one_session "u0" cFun 1).map Sim.Event.offset_ms =
      [0, 100, 15000, 4000, 8000, 13000, 22000] from rfl] at hch
  have h2 := (List.chain'_cons.mp hch).2
  have h3 := (List.chain'_cons.mp h2).2
  have h4 := (List.chain'_cons.mp h3).1
  norm_num at h4

/-- Claim C1 (amended): in every session, `session_start` has offset 0, is emitted
first, and no later event is a session_start; the non-ecommerce events (session
start, page views, scroll) have strictly increasing offsets; the ecommerce events
have strictly increasing offsets among themselves and are emitted after all page
views; and the full emission-order offset sequence is monotone exactly for the
sessions that do not enter the purchase funnel — whenever the funnel fires, the
view_item offset (4000 ms) falls below an additional page view's offset
(15000 ms), so the sequence is not non-decreasing. -/
theorem c1_offset_discipline (client_id : String) (n : ℕ) (c : Sim.SessionChoices)
    (h : Sim.ValidChoices c) :
    Sim.simulate_one_session client_id c n =
      Sim.nonecom_events client_id c n ++ Sim.ecom_events client_id c n ∧
    (Sim.simulate_one_session client_id c n).head? =
      some (Sim.session_start_event client_id c n) ∧
    (Sim.session_start_event client_id c n).offset_ms = 0 ∧
    (∀ e ∈ (Sim.simulate_one_session client_id c n).tail, e.name ≠ "session_start") ∧
    List.Chain' (· < ·) ((Sim.nonecom_events client_id c n).map Sim.Event.offset_ms) ∧
    List.Chain' (· < ·) ((Sim.ecom_events client_id c n).map Sim.Event.offset_ms) ∧
    (c.enter_funnel = false →
      List.Chain' (· ≤ ·) ((Sim.simulate_one_session client_id c n).map Sim.Event.offset_ms)) ∧
    (c.enter_funnel = true →
      ¬ List.Chain' (· ≤ ·) ((Sim.simulate_one_session client_id c n).map Sim.Event.offset_ms)) := by
  obtain ⟨hlang, hdev, hsrc, hlen2, hlen6, hnodup, hpages, hpv1a, hpv1b, hsca, hscb,
    hena, henb, hgla, hglb, hprod, hcur, hv1, hv2, ha1, ha2, hb1, hb2, hpu1, hpu2⟩ := h
  refine ⟨rfl, rfl, rfl, ?_, nonecom_offsets_chain client_id c n hglb,
    ecom_offsets_chain client_id c n, ?_, ?_⟩
  · intro e he
    have he2 : e ∈ (Sim.pv1_event client_id c n ::
        ((if c.do_scroll then [Sim.scroll_event client_id c n] else []) ++
          Sim.addl_pv_events client_id c n
            (c.paths.tail.zip (c.addl_engs.zip c.addl_gaps)) 15000)) ++
        Sim.ecom_events client_id c n := he
    rcases List.mem_append.mp he2 with h | h
    · rcases List.mem_cons.mp h with h | h
      · rw [h]; exact (by decide : ("page_view" : String) ≠ "session_start")
      rcases List.mem_append.mp h with h | h
      · cases hds : c.do_scroll <;> rw [hds] at h
        · simp at h
        · simp at h
          rw [h]; exact (by decide : ("scroll" : String) ≠ "session_start")
      · obtain ⟨x, hx, t, hxe⟩ := mem_addl client_id c n _ _ e h
        rw [hxe]; exact (by decide : ("page_view" : String) ≠ "session_start")
    · rcases mem_ecom client_id c n e h with h | h | h | h <;> rw [h]
      · exact (by decide : ("view_item" : String) ≠ "session_start")
      · exact (by decide : ("add_to_cart" : String) ≠ "session_start")
      · exact (by decide : ("begin_checkout" : String) ≠ "session_start")
      · exact (by decide : ("purchase" : String) ≠ "session_start")
  · intro hef
    have hecom : Sim.ecom_events client_id c n = [] := by
      unfold Sim.ecom_events
      rw [hef]
      rfl
    unfold Sim.simulate_one_session
    rw [hecom, List.append_nil]
    exact List.Chain'.imp (fun a b hab => le_of_lt hab)
      (nonecom_offsets_chain client_id c n hglb)
  · intro hef hch
    have hch2 : List.Chain' (· ≤ ·)
        ((Sim.nonecom_events client_id c n).map Sim.Event.offset_ms ++
         (Sim.ecom_events client_id c n).map Sim.Event.offset_ms) := by
      rw [← List.map_append]
      exact hch
    have hpw := List.chain'_iff_pairwise.mp hch2
    rw [List.pairwise_append] at hpw
    have hzlen : 0 < (c.paths.tail.zip (c.addl_engs.zip c.addl_gaps)).length := by
      rw [List.length_zip, List.length_zip, List.length_tail, hena, hgla,
        min_self, min_self]
      omega
    have h15 : (15000 : ℤ) ∈ (Sim.nonecom_events client_id c n).map Sim.Event.offset_ms := by
      cases hz : c.paths.tail.zip (c.addl_engs.zip c.addl_gaps) with
      | nil => rw [hz] at hzlen; simp at hzlen
      | cons x rest =>
        obtain ⟨px, ex, gx⟩ := x
        refine List.mem_map.mpr ⟨Sim.addl_pv_event client_id c n px ex 15000, ?_, rfl⟩
        show Sim.addl_pv_event client_id c n px ex 15000 ∈
          Sim.session_start_event client_id c n :: Sim.pv1_event client_id c n ::
          ((if c.do_scroll then [Sim.scroll_event client_id c n] else []) ++
            Sim.addl_pv_events client_id c n
              (c.paths.tail.zip (c.addl_engs.zip c.addl_gaps)) 15000)
        rw [hz]
        refine List.mem_cons_of_mem _ (List.mem_cons_of_mem _ (List.mem_append_right _ ?_))
        rw [Sim.addl_pv_events]
        exact List.mem_cons_self _ _
    have h4 : (4000 : ℤ) ∈ (Sim.ecom_events client_id c n).map Sim.Event.offset_ms := by
      refine List.mem_map.mpr ⟨Sim.send_ecom client_id c n "view_item"
        [("value", PVal.q c.product.price)] 4000 c.vi_eng, ?_, rfl⟩
      unfold Sim.ecom_events
      rw [hef]
      exact List.mem_cons_self _ _
    have hle := hpw.2.2 15000 h15 4000 h4
    linarith

/-- Witness for C1 (amended) at the concrete non-funnel session `cNoFun`. -/
theorem c1_offset_discipline_witness :
    Sim.ValidChoices cNoFun ∧
    (Sim.simulate_one_session "w1" cNoFun 1 =
       Sim.nonecom_events "w1" cNoFun 1 ++ Sim.ecom_events "w1" cNoFun 1 ∧
     (Sim.simulate_one_session "w1" cNoFun 1).head? =
       some (Sim.session_start_event "w1" cNoFun 1) ∧
     (Sim.session_start_event "w1" cNoFun 1).offset_ms = 0 ∧
     (∀ e ∈ (Sim.simulate_one_session "w1" cNoFun 1).tail, e.name ≠ "session_start") ∧
     List.Chain' (· < ·) ((Sim.nonecom_events "w1" cNoFun 1).map Sim.Event.offset_ms) ∧
     List.Chain' (· < ·) ((Sim.ecom_events "w1" cNoFun 1).map Sim.Event.offset_ms) ∧
     (cNoFun.enter_funnel = false →
       List.Chain' (· ≤ ·) ((Sim.simulate_one_session "w1" cNoFun 1).map Sim.Event.offset_ms)) ∧
     (cNoFun.enter_funnel = true →
       ¬ List.Chain' (· ≤ ·) ((Sim.simulate_one_session "w1" cNoFun 1).map Sim.Event.offset_ms))) :=
  ⟨by decide, c1_offset_discipline "w1" 1 cNoFun (by decide)⟩

theorem cFun_valid : Sim.ValidChoices cFun := by decide

theorem cNoFun_valid : Sim.ValidChoices cNoFun := by decide

theorem v1Ex_valid : SimV1.ValidChoicesV1 v1Ex := by
  refine ⟨by decide, by decide, by decide, by decide, by decide, by decide, by decide,
    by decide, by decide, by decide, by decide, by decide, ?_⟩
  simp [v1Ex, SimV1.PRODUCTS]

/-! Name lemmas. -/

theorem nonecom_not_ecom_names (client_id : String) (c : Sim.SessionChoices) (n : ℕ)
    (e : Sim.Event) (h : e ∈ Sim.nonecom_events client_id c n) :
    isEcomName e.name = false := by
  rcases mem_nonecom client_id c n e h with h | h | ⟨_, h⟩ | ⟨x, hx, t, h⟩ <;> rw [h]
  · exact (by decide : isEcomName "session_start" = false)
  · exact (by decide : isEcomName "page_view" = false)
  · exact (by decide : isEcomName "scroll" = false)
  · exact (by decide : isEcomName "page_view" = false)

theorem ecom_filter_prefix (client_id : String) (c : Sim.SessionChoices) (n : ℕ) :
    ((Sim.ecom_events client_id c n).map Sim.Event.name).filter isEcomName <+: ecomNames := by
  unfold Sim.ecom_events
  cases c.enter_funnel
  · exact ⟨ecomNames, rfl⟩
  cases c.do_atc
  · exact ⟨["add_to_cart", "begin_checkout", "purchase"], rfl⟩
  cases c.do_bc
  · exact ⟨["begin_checkout", "purchase"], rfl⟩
  cases c.do_purchase
  · exact ⟨["purchase"], rfl⟩
  · exact ⟨[], rfl⟩

theorem mem_v1_page_views (client_id : String) (c : SimV1.V1Choices) :
    ∀ (l : List (String × ℤ)) (e : SimV1.EventV1), e ∈ SimV1.page_views_v1 client_id c l →
      ∃ x ∈ l, e = SimV1.page_view_v1 client_id c x.1 x.2 := by
  intro l
  induction l with
  | nil => intro e h; simp [SimV1.page_views_v1] at h
  | cons hd tl ih =>
    obtain ⟨p, eng⟩ := hd
    intro e h
    rw [SimV1.page_views_v1] at h
    rcases List.mem_cons.mp h with h | h
    · exact ⟨(p, eng), List.mem_cons_self _ _, h⟩
    · obtain ⟨x, hx, he⟩ := ih e h
      exact ⟨x, List.mem_cons_of_mem _ hx, he⟩

/-- Claim C2 counterexample: a v1 session whose purchase roll succeeds emits a
`purchase` event although no `begin_checkout`, `add_to_cart` or `view_item`
event is ever emitted in that session. -/
theorem c2_counterexample :
    "purchase" ∈ (SimV1.simulate_session "u1" v1Ex).map SimV1.EventV1.name ∧
    "begin_checkout" ∉ (SimV1.simulate_session "u1" v1Ex).map SimV1.EventV1.name ∧
    "add_to_cart" ∉ (SimV1.simulate_session "u1" v1Ex).map SimV1.EventV1.name ∧
    "view_item" ∉ (SimV1.simulate_session "u1" v1Ex).map SimV1.EventV1.name :=
  ⟨by decide, by decide, by decide, by decide⟩

/-- Claim C2 (amended): in `simulator.py` the funnel is strictly gated — the
ecommerce events emitted in a session always form a prefix of
view_item → add_to_cart → begin_checkout → purchase, so no stage is skipped and
each stage is emitted only after all earlier stages; in `simulator-v1.py`,
however, the only ecommerce event is `purchase`, emitted directly when its roll
succeeds, with none of the earlier stages. -/
theorem c2_funnel_gating (client_id : String) (n : ℕ) (c : Sim.SessionChoices)
    (client_id' : String) (c' : SimV1.V1Choices) :
    ((Sim.simulate_one_session client_id c n).map Sim.Event.name).filter isEcomName <+:
      ecomNames ∧
    ((SimV1.simulate_session client_id' c').map SimV1.EventV1.name).filter isEcomName =
      (if c'.do_purchase then ["purchase"] else []) := by
  constructor
  · have hnil :
        ((Sim.nonecom_events client_id c n).map Sim.Event.name).filter isEcomName = [] := by
      rw [List.filter_eq_nil_iff]
      intro a ha
      rw [List.mem_map] at ha
      obtain ⟨e, he, rfl⟩ := ha
      rw [nonecom_not_ecom_names client_id c n e he]
      exact Bool.false_ne_true
    unfold Sim.simulate_one_session
    rw [List.map_append, List.filter_append, hnil, List.nil_append]
    exact ecom_filter_prefix client_id c n
  · have hnil :
        ((SimV1.page_views_v1 client_id' c' (c'.paths.zip c'.pv_engs)).map
          SimV1.EventV1.name).filter isEcomName = [] := by
      rw [List.filter_eq_nil_iff]
      intro a ha
      rw [List.mem_map] at ha
      obtain ⟨e, he, rfl⟩ := ha
      obtain ⟨x, hx, he⟩ := mem_v1_page_views client_id' c' _ e he
      rw [he]
      exact (by decide : ¬ isEcomName "page_view" = true)
    unfold SimV1.simulate_session
    rw [List.map_cons,
      show (SimV1.session_start_v1 client_id' c').name = "session_start" from rfl,
      List.filter_cons_of_neg (by decide), List.map_append, List.filter_append, hnil,
      List.nil_append]
    cases c'.do_purchase
    · rfl
    · rfl

/-! Engagement lemmas. -/

theorem pv1_engagement (client_id : String) (c : Sim.SessionChoices) (n : ℕ) :
    engagementOf (Sim.pv1_event client_id c n).params = some c.pv1_eng := by
  unfold Sim.pv1_event
  cases h : pyTruthyS (Sim.first_referrer c)
  · rfl
  · rfl

/-- Claim C3 counterexample: in a v1 session whose purchase roll succeeds, the
final emitted event is the purchase, and it carries no engagement-time
parameter at all. -/
theorem c3_counterexample :
    ((SimV1.simulate_session "u1" v1Ex).map (fun e => engagementOf e.params)).getLast? =
      some none ∧
    ((SimV1.simulate_session "u1" v1Ex).map SimV1.EventV1.name).getLast? = some "purchase" :=
  ⟨rfl, rfl⟩

/-- Claim C3 (amended): in `simulator.py` every emitted event carries a strictly
positive `engagement_time_msec`; in `simulator-v1.py` this holds for
`session_start` and `page_view` events, but the `purchase` event is emitted
with no engagement-time parameter at all. -/
theorem c3_engagement_positive (client_id : String) (n : ℕ) (c : Sim.SessionChoices)
    (h : Sim.ValidChoices c)
    (client_id' : String) (c' : SimV1.V1Choices) (h' : SimV1.ValidChoicesV1 c') :
    (∀ e ∈ Sim.simulate_one_session client_id c n,
       ∃ v, engagementOf e.params = some v ∧ 0 < v) ∧
    (∀ e ∈ SimV1.simulate_session client_id' c',
       e.name ≠ "purchase" → ∃ v, engagementOf e.params = some v ∧ 0 < v) ∧
    (c'.do_purchase = true →
       SimV1.purchase_v1 client_id' c' ∈ SimV1.simulate_session client_id' c' ∧
       engagementOf (SimV1.purchase_v1 client_id' c').params = none) := by
  obtain ⟨hlang, hdev, hsrc, hlen2, hlen6, hnodup, hpages, hpv1a, hpv1b, hsca, hscb,
    hena, henb, hgla, hglb, hprod, hcur, hv1, hv2, ha1, ha2, hb1, hb2, hpu1, hpu2⟩ := h
  obtain ⟨hlang', hdev', hcty', htr', hplen2', hplen5', hnodup', hpages', hssa', hssb',
    hpvlen', hpvrange', hprod'⟩ := h'
  refine ⟨?_, ?_, ?_⟩
  · intro e he
    rcases List.mem_append.mp he with he | he
    · rcases mem_nonecom client_id c n e he with h | h | ⟨_, h⟩ | ⟨x, hx, t, h⟩
      · rw [h]; exact ⟨1, rfl, by norm_num⟩
      · rw [h]; exact ⟨c.pv1_eng, pv1_engagement client_id c n, by linarith⟩
      · rw [h]; exact ⟨c.scroll_eng, rfl, by linarith⟩
      · obtain ⟨px, ex, gx⟩ := x
        rw [h]
        have hmem : ex ∈ c.addl_engs := (List.of_mem_zip (List.of_mem_zip hx).2).1
        exact ⟨ex, rfl, by linarith [(henb ex hmem).1]⟩
    · rcases mem_ecom client_id c n e he with h | h | h | h <;> rw [h]
      · exact ⟨c.vi_eng, rfl, by linarith⟩
      · exact ⟨c.atc_eng, rfl, by linarith⟩
      · exact ⟨c.bc_eng, rfl, by linarith⟩
      · exact ⟨c.purchase_eng, rfl, by linarith⟩
  · intro e he hname
    have he2 : e ∈ SimV1.session_start_v1 client_id' c' ::
        (SimV1.page_views_v1 client_id' c' (c'.paths.zip c'.pv_engs) ++
         (if c'.do_purchase then [SimV1.purchase_v1 client_id' c'] else [])) := he
    rcases List.mem_cons.mp he2 with h | h
    · rw [h]; exact ⟨c'.ss_eng, rfl, by linarith⟩
    rcases List.mem_append.mp h with h | h
    · obtain ⟨x, hx, he'⟩ := mem_v1_page_views client_id' c' _ e h
      rw [he']
      have hmem : x.2 ∈ c'.pv_engs := (List.of_mem_zip hx).2
      exact ⟨x.2, rfl, by linarith [(hpvrange' x.2 hmem).1]⟩
    · cases hp : c'.do_purchase <;> rw [hp] at h
      · simp at h
      · simp at h
        rw [h] at hname
        exact absurd rfl hname
  · intro hp
    refine ⟨?_, rfl⟩
    show SimV1.purchase_v1 client_id' c' ∈ SimV1.session_start_v1 client_id' c' ::
        (SimV1.page_views_v1 client_id' c' (c'.paths.zip c'.pv_engs) ++
         (if c'.do_purchase then [SimV1.purchase_v1 client_id' c'] else []))
    refine List.mem_cons_of_mem _ (List.mem_append_right _ ?_)
    rw [hp]
    exact List.mem_singleton_self _

/-- Witness for C3 (amended): the session_start event of a concrete valid session
carries engagement time 1 > 0. -/
theorem c3_engagement_positive_witness :
    Sim.ValidChoices cFun ∧ SimV1.ValidChoicesV1 v1Ex ∧
    (∃ v, engagementOf (Sim.session_start_event "u0" cFun 1).params = some v ∧ 0 < v) :=
  ⟨cFun_valid, v1Ex_valid,
   (c3_engagement_positive "u0" 1 cFun cFun_valid "u1" v1Ex v1Ex_valid).1
     (Sim.session_start_event "u0" cFun 1)
     (by simp [Sim.simulate_one_session, Sim.nonecom_events])⟩

/-! Acquisition lemmas for C5. -/

theorem eventHasAcq_pv1 (client_id : String) (c : Sim.SessionChoices) (n : ℕ) :
    eventHasAcq (Sim.pv1_event client_id c n) =
      (pyTruthyS (Sim.first_referrer c) || pyInChar '?' (Sim.first_url c)) := by
  unfold Sim.pv1_event
  cases h : pyTruthyS (Sim.first_referrer c)
  · rfl
  · rfl

/-- Claim C5 counterexample: in v1, the second page view (a non-landing event)
also carries the acquisition `source` parameter, and in a `simulator.py` session
with a direct traffic source no event at all carries acquisition data — so the
fields are not "attached to exactly one event". -/
theorem c5_counterexample :
    ((SimV1.simulate_session "u1" v1Ex).map (fun e => dictGet? e.params "source")).drop 2 =
      [some (PVal.s "google"), none] ∧
    (Sim.simulate_one_session "u0" cFun 1).map eventHasAcq =
      [false, false, false, false, false, false, false] :=
  ⟨rfl, rfl⟩

/-- Claim C5 (amended): in `simulator.py`, acquisition data (page_referrer or UTM
query parameters in the page URL) appears on no event other than the landing page
view, and appears on the landing page view exactly when the chosen traffic source
is of type utm or referral (direct and unknown sessions carry none); in
`simulator-v1.py`, the source/medium/campaign parameters are attached to every
page view of the session, not only the landing one. -/
theorem c5_acquisition (client_id : String) (n : ℕ) (c : Sim.SessionChoices)
    (h : Sim.ValidChoices c) (client_id' : String) (c' : SimV1.V1Choices) :
    (∀ e ∈ Sim.simulate_one_session client_id c n,
       e ≠ Sim.pv1_event client_id c n → eventHasAcq e = false) ∧
    (eventHasAcq (Sim.pv1_event client_id c n) = true ↔
       (c.src.type = "utm" ∨ c.src.type = "referral")) ∧
    (∀ e ∈ SimV1.simulate_session client_id' c', e.name = "page_view" →
       dictGet? e.params "source" = some (PVal.s c'.traffic.source) ∧
       dictGet? e.params "medium" = some (PVal.s c'.traffic.medium) ∧
       dictGet? e.params "campaign" = some (PVal.s (c'.traffic.campaign.getD "(not set)"))) := by
  obtain ⟨hlang, hdev, hsrc, hlen2, hlen6, hnodup, hpages, hpv1a, hpv1b, hsca, hscb,
    hena, henb, hgla, hglb, hprod, hcur, hv1, hv2, ha1, ha2, hb1, hb2, hpu1, hpu2⟩ := h
  have hqf : ∀ p ∈ Sim.PAGES, pyInChar '?' (Sim.BASE_DOMAIN ++ p) = false := by decide
  have hfirst : c.paths.headD "" ∈ Sim.PAGES := by
    cases hpth : c.paths with
    | nil => rw [hpth] at hlen2; simp at hlen2
    | cons p rest =>
      have hmem : p ∈ c.paths := by rw [hpth]; exact List.mem_cons_self _ _
      exact hpages p hmem
  refine ⟨?_, ?_, ?_⟩
  · intro e he hne
    rcases List.mem_append.mp he with he | he
    · rcases mem_nonecom client_id c n e he with h | h | ⟨_, h⟩ | ⟨x, hx, t, h⟩
      · rw [h]; rfl
      · exact absurd h hne
      · rw [h]; rfl
      · rw [h]
        have hx1 : x.1 ∈ c.paths.tail := (List.of_mem_zip hx).1
        exact hqf x.1 (hpages x.1 (List.mem_of_mem_tail hx1))
    · rcases mem_ecom client_id c n e he with h | h | h | h <;> rw [h] <;> rfl
  · rw [eventHasAcq_pv1]
    unfold Sim.first_referrer Sim.first_url Sim.first_path
    unfold Sim.TRAFFIC_SOURCES at hsrc
    simp only [List.mem_cons, List.not_mem_nil, or_false] at hsrc
    rcases hsrc with h | h | h | h | h | h | h | h | h | h | h | h | h | h | h | h | h | h | h <;>
      rw [h]
    · exact iff_of_true rfl (Or.inl rfl)
    · exact iff_of_true rfl (Or.inl rfl)
    · exact iff_of_true rfl (Or.inl rfl)
    · exact iff_of_true rfl (Or.inl rfl)
    · exact iff_of_true
        ((by decide : ∀ p ∈ Sim.PAGES, pyInChar '?' (Sim.build_url_with_utms p
            ⟨"utm", "google", some "cpc", some "spring_promotion", some 8, none⟩) = true)
          (c.paths.headD "") hfirst) (Or.inl rfl)
    · exact iff_of_true
        ((by decide : ∀ p ∈ Sim.PAGES, pyInChar '?' (Sim.build_url_with_utms p
            ⟨"utm", "google", some "cpc", some "performance_max", some 6, none⟩) = true)
          (c.paths.headD "") hfirst) (Or.inl rfl)
    · exact iff_of_true
        ((by decide : ∀ p ∈ Sim.PAGES, pyInChar '?' (Sim.build_url_with_utms p
            ⟨"utm", "google", some "cpc", some "branded", some 5, none⟩) = true)
          (c.paths.headD "") hfirst) (Or.inl rfl)
    · exact iff_of_true
        ((by decide : ∀ p ∈ Sim.PAGES, pyInChar '?' (Sim.build_url_with_utms p
            ⟨"utm", "newsletter", some "email", some "monthly_update", some 8, none⟩) = true)
          (c.paths.headD "") hfirst) (Or.inl rfl)
    · exact iff_of_true rfl (Or.inr rfl)
    · exact iff_of_true rfl (Or.inr rfl)
    · exact iff_of_true rfl (Or.inl rfl)
    · exact iff_of_true rfl (Or.inr rfl)
    · exact iff_of_true rfl (Or.inl rfl)
    · exact iff_of_true rfl (Or.inr rfl)
    · exact iff_of_true rfl (Or.inr rfl)
    · exact iff_of_true rfl (Or.inr rfl)
    · exact iff_of_true rfl (Or.inr rfl)
    · refine iff_of_false ?_ ?_
      · intro hc
        have hc2 : pyInChar '?' (Sim.BASE_DOMAIN ++ c.paths.headD "") = true := hc
        rw [hqf (c.paths.headD "") hfirst] at hc2
        exact Bool.false_ne_true hc2
      · rintro (hcase | hcase) <;> exact absurd hcase (by decide)
    · refine iff_of_false ?_ ?_
      · intro hc
        have hc2 : pyInChar '?' (Sim.BASE_DOMAIN ++ c.paths.headD "") = true := hc
        rw [hqf (c.paths.headD "") hfirst] at hc2
        exact Bool.false_ne_true hc2
      · rintro (hcase | hcase) <;> exact absurd hcase (by decide)
  · intro e he hname
    have he2 : e ∈ SimV1.session_start_v1 client_id' c' ::
        (SimV1.page_views_v1 client_id' c' (c'.paths.zip c'.pv_engs) ++
         (if c'.do_purchase then [SimV1.purchase_v1 client_id' c'] else [])) := he
    rcases List.mem_cons.mp he2 with h | h
    · rw [h] at hname
      exact absurd hname (by decide : ¬ ("session_start" = "page_view"))
    rcases List.mem_append.mp h with h | h
    · obtain ⟨x, hx, he'⟩ := mem_v1_page_views client_id' c' _ e h
      rw [he']
      exact ⟨rfl, rfl, rfl⟩
    · cases hp : c'.do_purchase <;> rw [hp] at h
      · simp at h
      · simp at h
        rw [h] at hname
        exact absurd hname (by decide : ¬ ("purchase" = "page_view"))

/-- Witness for C5 (amended) at the concrete direct-source session `cFun`. -/
theorem c5_acquisition_witness :
    Sim.ValidChoices cFun ∧
    eventHasAcq (Sim.session_start_event "u0" cFun 1) = false ∧
    (eventHasAcq (Sim.pv1_event "u0" cFun 1) = true ↔
      (cFun.src.type = "utm" ∨ cFun.src.type = "referral")) :=
  ⟨cFun_valid,
   (c5_acquisition "u0" 1 cFun cFun_valid "u1" v1Ex).1
     (Sim.session_start_event "u0" cFun 1)
     (by simp [Sim.simulate_one_session, Sim.nonecom_events])
     (by decide),
   (c5_acquisition "u0" 1 cFun cFun_valid "u1" v1Ex).2.1⟩

/-- Claim C6 counterexample: in a session with a scroll event, the session_start
and first page view carry the device's `screen_resolution`, but the scroll event
(emitted third) carries no screen_resolution parameter at all — so not every
event of the session carries the same device-derived parameters. -/
theorem c6_counterexample :
    ((Sim.simulate_one_session "u0" cNoFun 1).map
        (fun e => dictGet? e.params "screen_resolution")).take 3 =
      [some (PVal.s "2560x1440"), some (PVal.s "2560x1440"), none] :=
  rfl

/-- Claim C6 (amended): every event of a session carries the same session key,
session ordinal, language and client id in its parameters and is sent with the
same device user agent; but the device parameters screen_resolution, platform
and os_hint are only attached to the first two events (session_start and the
landing page view, with the device's values) and to no later event. -/
theorem c6_session_consistency (client_id : String) (n : ℕ) (c : Sim.SessionChoices) :
    (∀ e ∈ Sim.simulate_one_session client_id c n,
       dictGet? e.params "ga_session_id" = some (PVal.i c.now_epoch_s) ∧
       dictGet? e.params "ga_session_number" = some (PVal.i (n : ℤ)) ∧
       dictGet? e.params "language" = some (PVal.s c.lang) ∧
       e.user_agent = c.device.user_agent ∧
       e.client_id = client_id) ∧
    (∀ e ∈ [Sim.session_start_event client_id c n, Sim.pv1_event client_id c n],
       dictGet? e.params "screen_resolution" = some (PVal.s c.device.screen_resolution) ∧
       dictGet? e.params "platform" = some (PVal.s c.device.platform) ∧
       dictGet? e.params "os_hint" = some (PVal.s c.device.os_hint)) ∧
    (∀ e ∈ (Sim.simulate_one_session client_id c n).drop 2,
       dictGet? e.params "screen_resolution" = none ∧
       dictGet? e.params "platform" = none ∧
       dictGet? e.params "os_hint" = none) := by
  refine ⟨?_, ?_, ?_⟩
  · intro e he
    rcases List.mem_append.mp he with he | he
    · rcases mem_nonecom client_id c n e he with h | h | ⟨_, h⟩ | ⟨x, hx, t, h⟩ <;> rw [h]
      · exact ⟨rfl, rfl, rfl, rfl, rfl⟩
      · unfold Sim.pv1_event
        cases hr : pyTruthyS (Sim.first_referrer c)
        · exact ⟨rfl, rfl, rfl, rfl, rfl⟩
        · exact ⟨rfl, rfl, rfl, rfl, rfl⟩
      · exact ⟨rfl, rfl, rfl, rfl, rfl⟩
      · exact ⟨rfl, rfl, rfl, rfl, rfl⟩
    · rcases mem_ecom client_id c n e he with h | h | h | h <;> rw [h] <;>
        exact ⟨rfl, rfl, rfl, rfl, rfl⟩
  · intro e he
    rcases List.mem_cons.mp he with h | h
    · rw [h]; exact ⟨rfl, rfl, rfl⟩
    · rw [List.mem_singleton] at h
      rw [h]
      unfold Sim.pv1_event
      cases hr : pyTruthyS (Sim.first_referrer c)
      · exact ⟨rfl, rfl, rfl⟩
      · exact ⟨rfl, rfl, rfl⟩
  · intro e he
    have he2 : e ∈ ((if c.do_scroll then [Sim.scroll_event client_id c n] else []) ++
        Sim.addl_pv_events client_id c n
          (c.paths.tail.zip (c.addl_engs.zip c.addl_gaps)) 15000) ++
        Sim.ecom_events client_id c n := he
    rcases List.mem_append.mp he2 with h | h
    · rcases List.mem_append.mp h with h | h
      · cases hds : c.do_scroll <;> rw [hds] at h
        · simp at h
        · simp at h
          rw [h]; exact ⟨rfl, rfl, rfl⟩
      · obtain ⟨x, hx, t, hxe⟩ := mem_addl client_id c n _ _ e h
        rw [hxe]; exact ⟨rfl, rfl, rfl⟩
    · rcases mem_ecom client_id c n e h with h | h | h | h <;> rw [h] <;>
        exact ⟨rfl, rfl, rfl⟩

/-- Witness for C6 (amended) at the session_start event of a concrete session. -/
theorem c6_session_consistency_witness :
    dictGet? (Sim.session_start_event "u0" cNoFun 1).params "ga_session_id" =
      some (PVal.i cNoFun.now_epoch_s) ∧
    dictGet? (Sim.session_start_event "u0" cNoFun 1).params "ga_session_number" =
      some (PVal.i (1 : ℤ)) ∧
    dictGet? (Sim.session_start_event "u0" cNoFun 1).params "language" =
      some (PVal.s cNoFun.lang) ∧
    (Sim.session_start_event "u0" cNoFun 1).user_agent = cNoFun.device.user_agent ∧
    (Sim.session_start_event "u0" cNoFun 1).client_id = "u0" :=
  (c6_session_consistency "u0" 1 cNoFun).1 (Sim.session_start_event "u0" cNoFun 1)
    (by simp [Sim.simulate_one_session, Sim.nonecom_events])

/-- Claim C10: whenever a session enters the purchase funnel, every ecommerce
event of the session carries the session's single chosen currency and the same
one-element items list, whose entry has quantity 1 and the chosen product's
catalog price; and the purchase event's tax parameter is the price times 0.1
rounded (banker's rounding) to 2 decimal places, with value equal to the price. -/
theorem c10_ecom_consistency (client_id : String) (n : ℕ) (c : Sim.SessionChoices) :
    ∀ e ∈ Sim.simulate_one_session client_id c n, isEcomName e.name = true →
      dictGet? e.params "currency" = some (PVal.s c.currency) ∧
      dictGet? e.params "items" = some (PVal.items [Sim.sessionItem c]) ∧
      (Sim.sessionItem c).quantity = 1 ∧
      (Sim.sessionItem c).price = c.product.price ∧
      (e.name = "purchase" →
        dictGet? e.params "tax" = some (PVal.q (pyRound2 (c.product.price * (1 / 10)))) ∧
        dictGet? e.params "value" = some (PVal.q c.product.price)) := by
  intro e he hname
  rcases List.mem_append.mp he with he | he
  · rw [nonecom_not_ecom_names client_id c n e he] at hname
    exact absurd hname Bool.false_ne_true
  · rcases mem_ecom client_id c n e he with h | h | h | h <;> rw [h]
    · exact ⟨rfl, rfl, rfl, rfl,
        fun hn => absurd hn (by decide : ¬ ("view_item" = "purchase"))⟩
    · exact ⟨rfl, rfl, rfl, rfl,
        fun hn => absurd hn (by decide : ¬ ("add_to_cart" = "purchase"))⟩
    · exact ⟨rfl, rfl, rfl, rfl,
        fun hn => absurd hn (by decide : ¬ ("begin_checkout" = "purchase"))⟩
    · exact ⟨rfl, rfl, rfl, rfl, fun hn => ⟨rfl, rfl⟩⟩

/-- Witness for C10 at the purchase event of the concrete full-funnel session. -/
theorem c10_ecom_consistency_witness :
    isEcomName (Sim.send_ecom "u0" cFun 1 "purchase"
        [("transaction_id", PVal.s cFun.txn_id), ("value", PVal.q cFun.product.price),
         ("tax", PVal.q (pyRound2 (cFun.product.price * (1 / 10)))),
         ("shipping", PVal.q 0)] 22000 cFun.purchase_eng).name = true ∧
    (dictGet? (Sim.send_ecom "u0" cFun 1 "purchase"
        [("transaction_id", PVal.s cFun.txn_id), ("value", PVal.q cFun.product.price),
         ("tax", PVal.q (pyRound2 (cFun.product.price * (1 / 10)))),
         ("shipping", PVal.q 0)] 22000 cFun.purchase_eng).params "currency" =
      some (PVal.s cFun.currency)) :=
  ⟨rfl,
   ((c10_ecom_consistency "u0" 1 cFun
      (Sim.send_ecom "u0" cFun 1 "purchase"
        [("transaction_id", PVal.s cFun.txn_id), ("value", PVal.q cFun.product.price),
         ("tax", PVal.q (pyRound2 (cFun.product.price * (1 / 10)))),
         ("shipping", PVal.q 0)] 22000 cFun.purchase_eng)
      (List.mem_append_right _
        (List.mem_cons_of_mem _ (List.mem_cons_of_mem _
          (List.mem_cons_of_mem _ (List.mem_cons_self _ _)))))
      rfl).1)⟩

/-- A traffic-source option whose explicit weight is zero. -/
def zeroWeightSource : Sim.TrafficSource := ⟨"utm", "zero", some "organic", none, some 0, none⟩

/-- Claim C9 counterexample: a non-empty option set of total weight zero does not
make `weighted_choice` fail — with the only possible uniform draw `r = 0` from
`[0, 0]`, the accumulator test `0 + 0 >= 0` passes at once and the first option
is returned. -/
theorem c9_counterexample :
    Sim.wTotal [zeroWeightSource] = 0 ∧
    Sim.weighted_choice [zeroWeightSource] 0 = some zeroWeightSource := by
  refine ⟨by simp [Sim.wTotal, Sim.wWeight, zeroWeightSource], ?_⟩
  simp [Sim.weighted_choice, Sim.wcLoop, zeroWeightSource, Sim.wWeight]

/-- Claim C9 (amended): passing an empty option set to `weighted_choice` fails
(the fall-through `options[-1]` on an empty list is an index error, modelled as
`none`), but a non-empty option set of total weight zero and non-negative
weights does not fail: with the only possible draw `r = 0` the first option is
returned. -/
theorem c9_empty_vs_zero_weight (r : ℚ) (options : List Sim.TrafficSource)
    (h1 : options ≠ []) (h2 : ∀ o ∈ options, 0 ≤ Sim.wWeight o)
    (h3 : Sim.wTotal options = 0) :
    Sim.weighted_choice [] r = none ∧
    Sim.weighted_choice options 0 = options.head? := by
  refine ⟨rfl, ?_⟩
  cases options with
  | nil => exact absurd rfl h1
  | cons o rest =>
    have hw : (0 : ℚ) ≤ Sim.wWeight o := h2 o (List.mem_cons_self o rest)
    have hcond : 0 + Sim.wWeight o ≥ (0 : ℚ) := by linarith
    unfold Sim.weighted_choice Sim.wcLoop
    rw [if_pos hcond]
    rfl

/-- Witness for C9 (amended) at the concrete zero-weight singleton. -/
theorem c9_empty_vs_zero_weight_witness :
    ([zeroWeightSource] ≠ ([] : List Sim.TrafficSource)) ∧
    (∀ o ∈ [zeroWeightSource], 0 ≤ Sim.wWeight o) ∧
    Sim.wTotal [zeroWeightSource] = 0 ∧
    (Sim.weighted_choice [] (1 : ℚ) = none ∧
     Sim.weighted_choice [zeroWeightSource] 0 = [zeroWeightSource].head?) :=
  ⟨by simp, by simp [Sim.wWeight, zeroWeightSource],
   by simp [Sim.wTotal, Sim.wWeight, zeroWeightSource],
   c9_empty_vs_zero_weight 1 [zeroWeightSource] (by simp)
     (by simp [Sim.wWeight, zeroWeightSource])
     (by simp [Sim.wTotal, Sim.wWeight, zeroWeightSource])⟩

end GA4
